import Mathlib

/-!
# Verification of the argmap extraction pipeline

A shallow embedding of the argmap repository (src/argmap/schema.py,
src/argmap/extract.py, src/argmap/llm.py, src/server.py) together with
proofs of the behavioural properties stated about it.

Python values coming out of `json.loads` are modelled by the inductive
type `Json`; Python exceptions by `PyError`; fallible code returns
`Except PyError _`.  The generative backend is external to the
repository, so the model call is abstracted: the extraction functions
take the model's response text (and, for the streaming variant, the
backend's fragment sequence) as an input, and `json.loads` is a
function parameter `loads` since the JSON parser is Python's standard
library, not code of this repository.
-/

set_option maxHeartbeats 1000000

namespace Argmap

/-- A value produced by Python's `json.loads`: JSON null, booleans,
numbers (only integral numbers occur in the properties verified here —
spans are integer character offsets), strings, arrays, and objects.
An `obj` is the resulting Python `dict`, an association list of
key/value pairs. -/
inductive Json where
  | null
  | bool (b : Bool)
  | num (n : Int)
  | str (s : String)
  | arr (elems : List Json)
  | obj (fields : List (String × Json))

/-- Python exceptions raised by the embedded code.
`validationError` is pydantic's `ValidationError` (the spec's
`SchemaValidationError`; in pydantic it is a subclass of `ValueError`).
`valueError` is the plain `ValueError` raised by `extract_argument_map`
on malformed JSON (the spec's `MalformedOutput`).  `callError`,
`notConfigured` and `configurationError` are `LLMCallError`,
`LLMNotConfigured` and `LLMConfigurationError` from src/argmap/llm.py. -/
inductive PyError where
  | keyError (key : String)
  | typeError (msg : String)
  | attributeError (attr : String)
  | validationError (msg : String)
  | valueError (msg : String)
  | callError (msg : String)
  | notConfigured (msg : String)
  | configurationError (msg : String)

/-- Python `dict` lookup on the dict produced by `json.loads`
(`d[k]` / `d.get(k)` both go through this). -/
def dictGet : List (String × Json) → String → Option Json
  | [], _ => none
  | kv :: rest, k => if kv.1 = k then some kv.2 else dictGet rest k

/-- Python truthiness of a `json.loads` value: `None`, `False`, `0`,
`""`, `[]` and `{}` are falsy, everything else is truthy. -/
def Json.truthy : Json → Bool
  | .null => false
  | .bool b => b
  | .num n => n != 0
  | .str s => s != ""
  | .arr elems => !elems.isEmpty
  | .obj fields => !fields.isEmpty

/-! ## src/argmap/schema.py — the pydantic data model -/

/-- Model `TextSpan` from src/argmap/schema.py.  The source field `end` is a
Lean keyword, embedded here as `stop`. -/
structure TextSpan where
  start : Int
  stop : Int

/-- Model `Node` from src/argmap/schema.py. -/
structure Node where
  id : String
  content : String
  type : String
  rhetorical_force : Option String
  span : Option TextSpan

/-- Model `Edge` from src/argmap/schema.py. -/
structure Edge where
  source : String
  target : String
  type : String
  explanation : Option String

/-- Model `ArgumentMap` from src/argmap/schema.py.  `version` has pydantic
default `"1.0"`; `nodes` and `edges` default to the empty list;
`summary` and `key_tensions` default to `None`. -/
structure ArgumentMap where
  version : String
  source_text : String
  nodes : List Node
  edges : List Edge
  summary : Option String
  key_tensions : Option (List String)

/-- Pydantic validation of a required `str` field given the Python
value supplied for it: only a `str` is accepted (pydantic v2 does not
coerce numbers, booleans, null, lists or dicts to `str`). -/
def reqStrVal (field : String) : Json → Except PyError String
  | .str s => .ok s
  | _ => .error (.validationError (field ++ ": Input should be a valid string"))

/-- Pydantic validation of an `Optional[str]` field given the Python
value supplied for it: `None` or a `str`. -/
def optStrVal (field : String) : Json → Except PyError (Option String)
  | .null => .ok none
  | .str s => .ok (some s)
  | _ => .error (.validationError (field ++ ": Input should be a valid string"))

/-- Pydantic validation of a required `int` field looked up in a
keyword mapping: absent means "Field required"; present non-integers
are rejected.  (Pydantic's lax coercion of integer-valued strings is
not exercised by any property here: spans in the documented shape are
JSON numbers.) -/
def reqIntField (fields : List (String × Json)) (field : String) : Except PyError Int :=
  match dictGet fields field with
  | some (.num n) => .ok n
  | some _ => .error (.validationError (field ++ ": Input should be a valid integer"))
  | none => .error (.validationError (field ++ ": Field required"))

/-- Construction `TextSpan(**mapping)`: pydantic validates `start` and `end` in
field order; extra keys are ignored (default `extra="ignore"`). -/
def TextSpan.fromKwargs (fields : List (String × Json)) : Except PyError TextSpan := do
  let s ← reqIntField fields "start"
  let e ← reqIntField fields "end"
  .ok ⟨s, e⟩

/-- Construction `Node(id=…, content=…, type=…, rhetorical_force=…, span=…)` as
called from extract.py: the first four arguments are raw Python values
from the response JSON, `span` is an already-constructed
`TextSpan`/`None`.  Pydantic validates in field-declaration order. -/
def Node.validate (idv contentv typev rfv : Json) (span : Option TextSpan) :
    Except PyError Node := do
  let id ← reqStrVal "id" idv
  let content ← reqStrVal "content" contentv
  let ty ← reqStrVal "type" typev
  let rf ← optStrVal "rhetorical_force" rfv
  .ok ⟨id, content, ty, rf, span⟩

/-- Construction `Edge(source=…, target=…, type=…, explanation=…)` as called from
extract.py. -/
def Edge.validate (sourcev targetv typev explv : Json) : Except PyError Edge := do
  let source ← reqStrVal "source" sourcev
  let target ← reqStrVal "target" targetv
  let ty ← reqStrVal "type" typev
  let expl ← optStrVal "explanation" explv
  .ok ⟨source, target, ty, expl⟩

/-- Pydantic validation of each element of an `Optional[List[str]]`. -/
def listStrVal (field : String) : List Json → Except PyError (List String)
  | [] => .ok []
  | .str s :: rest => do
      let r ← listStrVal field rest
      .ok (s :: r)
  | _ :: _ => .error (.validationError (field ++ ": Input should be a valid string"))

/-- Pydantic validation of an `Optional[List[str]]` field given the
Python value supplied for it. -/
def optStrListVal (field : String) : Json → Except PyError (Option (List String))
  | .null => .ok none
  | .arr elems => do
      let strs ← listStrVal field elems
      .ok (some strs)
  | _ => .error (.validationError (field ++ ": Input should be a valid list"))

/-! ## src/argmap/extract.py — conversion of the parsed response -/

/-- Python `d.get(key, default)`. -/
def getDefault (fields : List (String × Json)) (key : String) (dflt : Json) : Json :=
  (dictGet fields key).getD dflt

/-- Python `d[key]`: raises `KeyError` when absent. -/
def getItem (fields : List (String × Json)) (key : String) : Except PyError Json :=
  match dictGet fields key with
  | some v => .ok v
  | none => .error (.keyError key)

/-- extract.py lines 53-55: `span = None; if node_data.get("span"):
span = TextSpan(**node_data["span"])`.  The truthiness test means JSON
`null`, an absent key, and the empty object all leave `span = None`;
a truthy non-mapping raises `TypeError` at the `**` unpacking. -/
def spanOfData (node_data : List (String × Json)) : Except PyError (Option TextSpan) :=
  let sv := getDefault node_data "span" .null
  if sv.truthy then
    match sv with
    | .obj fields => do
        let ts ← TextSpan.fromKwargs fields
        .ok (some ts)
    | _ => .error (.typeError "argument after ** must be a mapping")
  else .ok none

/-- extract.py lines 53-62: build one `Node` from a response entry.
Keyword arguments are evaluated left to right, so a missing required
key raises `KeyError` (in source order id, content, type) before
pydantic validation runs. -/
def nodeOfData (node_data : List (String × Json)) : Except PyError Node := do
  let span ← spanOfData node_data
  let idv ← getItem node_data "id"
  let contentv ← getItem node_data "content"
  let typev ← getItem node_data "type"
  let rfv := getDefault node_data "rhetorical_force" .null
  Node.validate idv contentv typev rfv span

/-- extract.py lines 64-71: build one `Edge` from a response entry. -/
def edgeOfData (edge_data : List (String × Json)) : Except PyError Edge := do
  let sourcev ← getItem edge_data "source"
  let targetv ← getItem edge_data "target"
  let typev ← getItem edge_data "type"
  let explv := getDefault edge_data "explanation" .null
  Edge.validate sourcev targetv typev explv

/-- The `for node_data in …` loop body: each entry must be a dict
(anything else has no `.get`, raising `AttributeError`); errors abort
the whole conversion, entries are never silently dropped. -/
def convertNodes : List Json → Except PyError (List Node)
  | [] => .ok []
  | .obj node_data :: rest => do
      let n ← nodeOfData node_data
      let ns ← convertNodes rest
      .ok (n :: ns)
  | _ :: _ => .error (.attributeError "get")

/-- The `for edge_data in …` loop body. -/
def convertEdges : List Json → Except PyError (List Edge)
  | [] => .ok []
  | .obj edge_data :: rest => do
      let e ← edgeOfData edge_data
      let es ← convertEdges rest
      .ok (e :: es)
  | _ :: _ => .error (.attributeError "get")

/-- Iterating `data.get("nodes", [])`: a JSON array iterates its
elements; iterating a string or dict yields characters/keys, which
have no `.get`, so a nonempty one fails on its first element while an
empty one yields nothing; numbers, booleans and null are not
iterable. -/
def convertNodesJson : Json → Except PyError (List Node)
  | .arr elems => convertNodes elems
  | .str s => if s = "" then .ok [] else .error (.attributeError "get")
  | .obj fields => if fields.isEmpty then .ok [] else .error (.attributeError "get")
  | _ => .error (.typeError "object is not iterable")

/-- Iterating `data.get("edges", [])`. -/
def convertEdgesJson : Json → Except PyError (List Edge)
  | .arr elems => convertEdges elems
  | .str s => if s = "" then .ok [] else .error (.attributeError "get")
  | .obj fields => if fields.isEmpty then .ok [] else .error (.attributeError "get")
  | _ => .error (.typeError "object is not iterable")

/-- extract.py lines 50-79: convert the parsed response `data` into an
`ArgumentMap`.  `data` must be a dict (`.get` on anything else raises
`AttributeError`); `nodes`/`edges` default to `[]` when absent;
`summary`/`key_tensions` are passed to the pydantic constructor, which
validates them as `Optional[str]` / `Optional[List[str]]`; `version`
is never taken from the response and `source_text` is always the
input text. -/
def convertData (text : String) : Json → Except PyError ArgumentMap
  | .obj data => do
      let nodes ← convertNodesJson (getDefault data "nodes" (.arr []))
      let edges ← convertEdgesJson (getDefault data "edges" (.arr []))
      let summary ← optStrVal "summary" (getDefault data "summary" .null)
      let kt ← optStrListVal "key_tensions" (getDefault data "key_tensions" .null)
      .ok ⟨"1.0", text, nodes, edges, summary, kt⟩
  | _ => .error (.attributeError "get")

/-- Function `extract_argument_map` (extract.py lines 10-79), given the model's
response text.  `loads` abstracts Python's `json.loads`; a parse
failure is re-raised as `ValueError` carrying the parse diagnostic. -/
def extract_argument_map (loads : String → Except String Json)
    (text response_text : String) : Except PyError ArgumentMap :=
  match loads response_text with
  | .error e => .error (.valueError ("LLM returned invalid JSON: " ++ e))
  | .ok data => convertData text data

/-! ## Pydantic construction from a mapping (schema.py contract)

The spec's schema contract is about constructing the pydantic models
directly from a mapping (`Model(**mapping)` / `Model.model_validate`),
validating each declared field in order: required fields are "Field
required" when absent, values of the wrong type are rejected, optional
fields default to `None`, and extra keys are ignored. -/

/-- A required `str` field looked up in a mapping. -/
def reqStrField (fields : List (String × Json)) (field : String) :
    Except PyError String :=
  match dictGet fields field with
  | some v => reqStrVal field v
  | none => .error (.validationError (field ++ ": Field required"))

/-- An `Optional[str]` field looked up in a mapping (absent means
`None`). -/
def optStrField (fields : List (String × Json)) (field : String) :
    Except PyError (Option String) :=
  match dictGet fields field with
  | some v => optStrVal field v
  | none => .ok none

/-- An `Optional[TextSpan]` field looked up in a mapping: absent or
`null` gives `None`, a dict is validated as a nested `TextSpan`,
anything else is rejected. -/
def spanField (fields : List (String × Json)) (field : String) :
    Except PyError (Option TextSpan) :=
  match dictGet fields field with
  | none => .ok none
  | some .null => .ok none
  | some (.obj sub) => do
      let ts ← TextSpan.fromKwargs sub
      .ok (some ts)
  | some _ => .error (.validationError (field ++ ": Input should be a valid dictionary"))

/-- Construction `Node(**mapping)`: pydantic field order id, content, type,
rhetorical_force, span. -/
def Node.fromMapping (fields : List (String × Json)) : Except PyError Node := do
  let id ← reqStrField fields "id"
  let content ← reqStrField fields "content"
  let ty ← reqStrField fields "type"
  let rf ← optStrField fields "rhetorical_force"
  let span ← spanField fields "span"
  .ok ⟨id, content, ty, rf, span⟩

/-- Construction `Edge(**mapping)`: pydantic field order source, target, type,
explanation. -/
def Edge.fromMapping (fields : List (String × Json)) : Except PyError Edge := do
  let source ← reqStrField fields "source"
  let target ← reqStrField fields "target"
  let ty ← reqStrField fields "type"
  let expl ← optStrField fields "explanation"
  .ok ⟨source, target, ty, expl⟩

/-- Each element of a `List[Node]` field must itself validate as a
`Node`; non-dict elements are rejected. -/
def nodeItems : List Json → Except PyError (List Node)
  | [] => .ok []
  | .obj nf :: rest => do
      let n ← Node.fromMapping nf
      let ns ← nodeItems rest
      .ok (n :: ns)
  | _ :: _ => .error (.validationError "nodes: Input should be a valid dictionary")

/-- Each element of a `List[Edge]` field. -/
def edgeItems : List Json → Except PyError (List Edge)
  | [] => .ok []
  | .obj ef :: rest => do
      let e ← Edge.fromMapping ef
      let es ← edgeItems rest
      .ok (e :: es)
  | _ :: _ => .error (.validationError "edges: Input should be a valid dictionary")

/-- The `nodes` field of `ArgumentMap`: `default_factory=list`, so
absent means `[]`; present values must be lists of valid nodes. -/
def nodesFieldVal (fields : List (String × Json)) : Except PyError (List Node) :=
  match dictGet fields "nodes" with
  | none => .ok []
  | some (.arr elems) => nodeItems elems
  | some _ => .error (.validationError "nodes: Input should be a valid list")

/-- The `edges` field of `ArgumentMap`. -/
def edgesFieldVal (fields : List (String × Json)) : Except PyError (List Edge) :=
  match dictGet fields "edges" with
  | none => .ok []
  | some (.arr elems) => edgeItems elems
  | some _ => .error (.validationError "edges: Input should be a valid list")

/-- The `key_tensions` field of `ArgumentMap`:
`Optional[List[str]]`, absent means `None`. -/
def ktField (fields : List (String × Json)) : Except PyError (Option (List String)) :=
  match dictGet fields "key_tensions" with
  | some v => optStrListVal "key_tensions" v
  | none => .ok none

/-- The `version` field of `ArgumentMap`: a `str` with default
`"1.0"`. -/
def versionField (fields : List (String × Json)) : Except PyError String :=
  match dictGet fields "version" with
  | none => .ok "1.0"
  | some v => reqStrVal "version" v

/-- Construction `ArgumentMap(**mapping)`: pydantic field order version,
source_text, nodes, edges, summary, key_tensions; `version` defaults
to `"1.0"` when absent. -/
def ArgumentMap.fromMapping (fields : List (String × Json)) :
    Except PyError ArgumentMap := do
  let version ← versionField fields
  let source_text ← reqStrField fields "source_text"
  let nodes ← nodesFieldVal fields
  let edges ← edgesFieldVal fields
  let summary ← optStrField fields "summary"
  let kt ← ktField fields
  .ok ⟨version, source_text, nodes, edges, summary, kt⟩

/-- Modelled from the spec: `generate_json_stream` is imported by
extract.py but absent from src/argmap/llm.py.  Per spec section 4.3 the
incremental call produces a finite sequence of string fragments whose
concatenation is the same JSON string the blocking call returns, so the
backend content is the fragment list itself. -/
def generate_json_stream (backendContent : List String) : List String :=
  backendContent

/-- Modelled from the spec: the single JSON string the blocking call
returns for the same backend content — the concatenation of the
fragments. -/
def backend_blocking_text (backendContent : List String) : String :=
  String.join backendContent

/-- Function `extract_argument_map_stream` (extract.py lines 82-160): the loop
`for chunk in generate_json_stream(…): full_response += chunk; yield
chunk` yields every fragment unchanged, in order, while accumulating
their concatenation; after exhaustion the accumulated string is parsed
and converted exactly as in the blocking path (the source duplicates
that code verbatim).  Result: the yielded fragments paired with the
final outcome. -/
def extract_argument_map_stream (loads : String → Except String Json)
    (text : String) (backendContent : List String) :
    List String × Except PyError ArgumentMap :=
  let yielded := generate_json_stream backendContent
  let full_response := String.join (generate_json_stream backendContent)
  (yielded,
    match loads full_response with
    | .error e => .error (.valueError ("LLM returned invalid JSON: " ++ e))
    | .ok data => convertData text data)

/-! ## src/argmap/llm.py — model client -/

/-- A Python attribute value on the backend response object: either a
string, or some non-string value carrying only its truthiness (all the
code does with a non-string payload is truth-test it and
`isinstance`-test it). -/
inductive PyVal where
  | str (s : String)
  | nonStr (truthy : Bool)

/-- Truthiness of `getattr(resp, attr, None)`: `none` is Python `None`
(attribute absent or set to `None`), which is falsy; `""` is falsy. -/
def pyTruthy : Option PyVal → Bool
  | none => false
  | some (.str s) => s != ""
  | some (.nonStr t) => t

/-- Python `a or b` on attribute values. -/
def pyOrV (a b : Option PyVal) : Option PyVal :=
  if pyTruthy a then a else b

/-- The backend response object as seen by `generate_json`:
`getattr(resp, "text", None)` and `getattr(resp, "output_text", None)`. -/
structure GenResp where
  text : Option PyVal
  output_text : Option PyVal

/-- llm.py lines 133-138:
`text = getattr(resp, "text", None) or getattr(resp, "output_text", None) or ""`,
then `raise LLMCallError` if the result is not a `str`, else return it. -/
def generate_json (resp : GenResp) : Except PyError String :=
  let text := pyOrV (pyOrV resp.text resp.output_text) (some (.str ""))
  match text with
  | some (.str s) => .ok s
  | _ => .error (.callError "LLM returned non-string content for JSON response.")

/-- The two authentication modes `init_llm_client` can configure the
google-genai client with. -/
inductive ClientConfig where
  | gemini (api_key : String)
  | vertex (project location : String)

/-- Process environment as read by llm.py: `GEMINI_API_KEY`,
`GOOGLE_CLOUD_PROJECT`, and the location default (`GOOGLE_CLOUD_LOCATION`
already defaulted to `"us-central1"` at import time). -/
structure LLMEnv where
  gemini_api_key : Option String
  google_cloud_project : Option String
  location_default : String

/-- The request-scoped `ContextVar` holding the per-request API key. -/
structure RequestCtx where
  request_api_key : Option String

/-- Python `a or b` on optional strings: `None` and `""` are falsy. -/
def pyOrS (a b : Option String) : Option String :=
  match a with
  | some s => if s = "" then b else some s
  | none => b

/-- Normalize to the truthy payload: `some s` with `s ≠ ""`, else
`none` — the value the Python `if` sees as true. -/
def truthyStr : Option String → Option String
  | some s => if s = "" then none else some s
  | none => none

/-- Function `init_llm_client` (llm.py lines 54-87).  `mkClient` abstracts the
external `genai.Client` constructor, which may throw (`.error` with
the exception text).  Returns `some client`, or `none` when
`required=False` and no client could be produced, or raises
`LLMConfigurationError` / `LLMNotConfigured`. -/
def init_llm_client {α : Type} (mkClient : ClientConfig → Except String α)
    (api_key project location : Option String) (required : Bool)
    (ctx : RequestCtx) (env : LLMEnv) : Except PyError (Option α) :=
  let gemini_api_key := pyOrS (pyOrS api_key ctx.request_api_key) env.gemini_api_key
  let google_cloud_project := pyOrS project env.google_cloud_project
  let google_cloud_location := (pyOrS location (some env.location_default)).getD env.location_default
  match truthyStr gemini_api_key with
  | some k =>
      match mkClient (.gemini k) with
      | .ok c => .ok (some c)
      | .error e =>
          if required then
            .error (.configurationError ("Failed to init google-genai client: " ++ e))
          else .ok none
  | none =>
      match truthyStr google_cloud_project with
      | some p =>
          match mkClient (.vertex p google_cloud_location) with
          | .ok c => .ok (some c)
          | .error e =>
              if required then
                .error (.configurationError ("Failed to init google-genai client: " ++ e))
              else .ok none
      | none =>
          if required then .error (.notConfigured "Set GEMINI_API_KEY.")
          else .ok none

/-- Spec-side (for comparison with the source): the first non-empty
value in a priority-ordered candidate list. -/
def firstNonEmpty : List (Option String) → Option String
  | [] => none
  | some s :: rest => if s = "" then firstNonEmpty rest else some s
  | none :: rest => firstNonEmpty rest

/-- Spec-side: attempt client construction; a thrown constructor
fails with `ConfigurationError` wrapping the cause when the call is
marked required, and yields no client otherwise. -/
def attemptClient {α : Type} (mkClient : ClientConfig → Except String α)
    (required : Bool) (cfg : ClientConfig) : Except PyError (Option α) :=
  match mkClient cfg with
  | .ok c => .ok (some c)
  | .error e =>
      if required then
        .error (.configurationError ("Failed to init google-genai client: " ++ e))
      else .ok none

/-- Spec-side credential resolution, written from the spec's words
(section 4.3), as amended: the first non-empty of (1) the explicit key
parameter, (2) the request-scoped key, (3) the environment API-key
default selects the Gemini auth mode; otherwise the first non-empty of
the project parameter and the environment project selects the Vertex
(enterprise) auth mode; when none resolve, a required call fails with
`NotConfigured` and a non-required call yields no client; a throwing
constructor is handled by `attemptClient`. -/
def init_llm_client_spec {α : Type} (mkClient : ClientConfig → Except String α)
    (api_key project location : Option String) (required : Bool)
    (ctx : RequestCtx) (env : LLMEnv) : Except PyError (Option α) :=
  match firstNonEmpty [api_key, ctx.request_api_key, env.gemini_api_key] with
  | some k => attemptClient mkClient required (.gemini k)
  | none =>
      match firstNonEmpty [project, env.google_cloud_project] with
      | some p =>
          attemptClient mkClient required
            (.vertex p ((pyOrS location (some env.location_default)).getD env.location_default))
      | none =>
          if required then .error (.notConfigured "Set GEMINI_API_KEY.")
          else .ok none

/-! ## src/server.py — content-addressable query store

`save_query` hashes `json.dumps({text, temperature, model}, sort_keys=True)`
with SHA-256 and keeps the first 12 hex digits.  The serialization
(`json.dumps` with `ensure_ascii=True` and default separators), UTF-8
encoding, and SHA-256 are embedded executably below.  A Python float
is never computed with here, only serialized, so it is carried by its
`repr` (the exact token `json.dumps` emits for it). -/

/-- A Python `float` value, represented by the token `json.dumps`
serializes it as (e.g. `"0.0"`). -/
structure PyFloat where
  lit : String

/-- A value of the `query_data` dict in `save_query`: strings,
`None` (for a missing model), and the float temperature. -/
inductive SVal where
  | null
  | str (s : String)
  | float (f : PyFloat)

/-- Hex digit characters, lowercase, as `hashlib`'s `hexdigest`
emits them. -/
def hexDigit (n : Nat) : Char :=
  "0123456789abcdef".data.getD (n % 16) '0'

/-- Four-hex-digit rendering used by `json.dumps` for escaped code
units. -/
def hex4 (n : Nat) : String :=
  String.mk [hexDigit (n / 4096), hexDigit (n / 256), hexDigit (n / 16), hexDigit n]

/-- One character of `json.dumps`'s ASCII string escaping
(`ensure_ascii=True`): quote and backslash are escaped, the control
characters use the short escapes where they exist, every character
outside `0x20`-`0x7e` becomes `\uXXXX` (a surrogate pair above
`0xffff`). -/
def escapeChar (c : Char) : String :=
  if c = '"' then "\\\""
  else if c = '\\' then "\\\\"
  else if c = '\x08' then "\\b"
  else if c = '\x0c' then "\\f"
  else if c = '\n' then "\\n"
  else if c = '\r' then "\\r"
  else if c = '\t' then "\\t"
  else if 0x20 ≤ c.toNat && c.toNat ≤ 0x7e then String.mk [c]
  else if c.toNat < 0x10000 then "\\u" ++ hex4 c.toNat
  else
    let v := c.toNat - 0x10000
    "\\u" ++ hex4 (0xd800 + v / 0x400) ++ "\\u" ++ hex4 (0xdc00 + v % 0x400)

/-- String body escaping of `json.dumps`. -/
def jsonEscape (s : String) : String :=
  String.join (s.data.map escapeChar)

/-- Serialization by `json.dumps` of one `query_data` value. -/
def SVal.dumps : SVal → String
  | .null => "null"
  | .str s => "\"" ++ jsonEscape s ++ "\""
  | .float f => f.lit

/-- Serialization by `json.dumps` of a dict with the keys in the order given (default
separators: item separator `", "`, key separator `": "`). -/
def dumpsObj (fields : List (String × SVal)) : String :=
  "\x7b" ++
    String.intercalate ", "
      (fields.map (fun kv => "\"" ++ jsonEscape kv.1 ++ "\": " ++ kv.2.dumps)) ++
  "\x7d"

/-- Lexicographic code-point order on strings, as Python compares
`str` keys for `sort_keys=True`. -/
def charsLe : List Char → List Char → Bool
  | [], _ => true
  | _ :: _, [] => false
  | c :: cs, d :: ds => if c < d then true else if c = d then charsLe cs ds else false

/-- Comparison `a <= b` on Python strings. -/
def strLeB (a b : String) : Bool :=
  charsLe a.data b.data

/-- Insertion into a key-sorted association list. -/
def insertSorted (kv : String × SVal) : List (String × SVal) → List (String × SVal)
  | [] => [kv]
  | kv' :: rest =>
      if strLeB kv.1 kv'.1 then kv :: kv' :: rest else kv' :: insertSorted kv rest

/-- Key sorting performed by `json.dumps(…, sort_keys=True)`. -/
def sortByKey (fields : List (String × SVal)) : List (String × SVal) :=
  fields.foldr insertSorted []

/-- Serialization `json.dumps(d, sort_keys=True)`. -/
def dumpsSorted (fields : List (String × SVal)) : String :=
  dumpsObj (sortByKey fields)

/-- UTF-8 encoding of one character (`str.encode()`). -/
def charUtf8 (c : Char) : List Nat :=
  let n := c.toNat
  if n < 0x80 then [n]
  else if n < 0x800 then [0xc0 + n / 64, 0x80 + n % 64]
  else if n < 0x10000 then [0xe0 + n / 4096, 0x80 + n / 64 % 64, 0x80 + n % 64]
  else [0xf0 + n / 0x40000, 0x80 + n / 4096 % 64, 0x80 + n / 64 % 64, 0x80 + n % 64]

/-- UTF-8 encoding of a character list. -/
def utf8Chars : List Char → List Nat
  | [] => []
  | c :: cs => charUtf8 c ++ utf8Chars cs

/-- Encoding `s.encode()`: the UTF-8 bytes of a string. -/
def utf8Bytes (s : String) : List Nat :=
  utf8Chars s.data

/-! ### SHA-256 (hashlib.sha256), over byte lists, words as `Nat mod 2^32` -/

/-- Rotate a 32-bit word right by n bit positions. -/
def rotr (x n : Nat) : Nat :=
  ((x >>> n) ||| (x <<< (32 - n))) % 2 ^ 32

/-- SHA-256 message padding: `0x80`, zeros to 56 mod 64, then the
bit length as 8 big-endian bytes. -/
def sha256pad (msg : List Nat) : List Nat :=
  let L := msg.length
  let k := (119 - L % 64) % 64
  let bits := L * 8
  msg ++ [0x80] ++ List.replicate k 0 ++
    [bits / 2 ^ 56 % 256, bits / 2 ^ 48 % 256, bits / 2 ^ 40 % 256, bits / 2 ^ 32 % 256,
     bits / 2 ^ 24 % 256, bits / 2 ^ 16 % 256, bits / 2 ^ 8 % 256, bits % 256]

/-- Split a padded message into 64-byte chunks. -/
def chunks64 (l : List Nat) : List (List Nat) :=
  if h : l = [] then []
  else
    have : (l.drop 64).length < l.length := by
      rw [List.length_drop]
      have hp : 0 < l.length := List.length_pos.mpr h
      omega
    l.take 64 :: chunks64 (l.drop 64)
termination_by l.length

/-- Big-endian 32-bit words of a chunk. -/
def toWords : List Nat → List Nat
  | b0 :: b1 :: b2 :: b3 :: rest =>
      (b0 * 2 ^ 24 + b1 * 2 ^ 16 + b2 * 2 ^ 8 + b3) :: toWords rest
  | _ => []

/-- The SHA-256 round constants. -/
def sha256K : List Nat :=
  [1116352408, 1899447441, 3049323471, 3921009573, 961987163, 1508970993,
   2453635748, 2870763221, 3624381080, 310598401, 607225278, 1426881987,
   1925078388, 2162078206, 2614888103, 3248222580, 3835390401, 4022224774,
   264347078, 604807628, 770255983, 1249150122, 1555081692, 1996064986,
   2554220882, 2821834349, 2952996808, 3210313671, 3336571891, 3584528711,
   113926993, 338241895, 666307205, 773529912, 1294757372, 1396182291,
   1695183700, 1986661051, 2177026350, 2456956037, 2730485921, 2820302411,
   3259730800, 3345764771, 3516065817, 3600352804, 4094571909, 275423344,
   430227734, 506948616, 659060556, 883997877, 958139571, 1322822218,
   1537002063, 1747873779, 1955562222, 2024104815, 2227730452, 2361852424,
   2428436474, 2756734187, 3204031479, 3329325298]

/-- The eight working (or chaining) variables of SHA-256. -/
structure Sha256State where
  h0 : Nat
  h1 : Nat
  h2 : Nat
  h3 : Nat
  h4 : Nat
  h5 : Nat
  h6 : Nat
  h7 : Nat

/-- SHA-256 initial hash value. -/
def sha256Init : Sha256State :=
  ⟨1779033703, 3144134277, 1013904242, 2773480762, 1359893119, 2600822924, 528734635, 1541459225⟩

/-- Extend 16 message-schedule words to 64. -/
def extendSchedule (ws : Array Nat) : Array Nat :=
  (List.range 48).foldl
    (fun a _ =>
      let t := a.size
      let w15 := a.getD (t - 15) 0
      let w2 := a.getD (t - 2) 0
      let s0 := (rotr w15 7) ^^^ (rotr w15 18) ^^^ (w15 >>> 3)
      let s1 := (rotr w2 17) ^^^ (rotr w2 19) ^^^ (w2 >>> 10)
      a.push ((a.getD (t - 16) 0 + s0 + a.getD (t - 7) 0 + s1) % 2 ^ 32))
    ws

/-- One SHA-256 compression round. -/
def sha256Round (s : Sha256State) (kw : Nat × Nat) : Sha256State :=
  let S1 := (rotr s.h4 6) ^^^ (rotr s.h4 11) ^^^ (rotr s.h4 25)
  let ch := (s.h4 &&& s.h5) ^^^ ((2 ^ 32 - 1 - s.h4 % 2 ^ 32) &&& s.h6)
  let temp1 := (s.h7 + S1 + ch + kw.1 + kw.2) % 2 ^ 32
  let S0 := (rotr s.h0 2) ^^^ (rotr s.h0 13) ^^^ (rotr s.h0 22)
  let maj := (s.h0 &&& s.h1) ^^^ (s.h0 &&& s.h2) ^^^ (s.h1 &&& s.h2)
  let temp2 := (S0 + maj) % 2 ^ 32
  ⟨(temp1 + temp2) % 2 ^ 32, s.h0, s.h1, s.h2, (s.h3 + temp1) % 2 ^ 32, s.h4, s.h5, s.h6⟩

/-- Compress one 64-byte chunk into the chaining state. -/
def sha256Compress (st : Sha256State) (chunk : List Nat) : Sha256State :=
  let w := extendSchedule (toWords chunk).toArray
  let r := (sha256K.zip w.toList).foldl sha256Round st
  ⟨(st.h0 + r.h0) % 2 ^ 32, (st.h1 + r.h1) % 2 ^ 32, (st.h2 + r.h2) % 2 ^ 32,
   (st.h3 + r.h3) % 2 ^ 32, (st.h4 + r.h4) % 2 ^ 32, (st.h5 + r.h5) % 2 ^ 32,
   (st.h6 + r.h6) % 2 ^ 32, (st.h7 + r.h7) % 2 ^ 32⟩

/-- Big-endian bytes of a 32-bit word. -/
def wordBytes (w : Nat) : List Nat :=
  [w / 2 ^ 24 % 256, w / 2 ^ 16 % 256, w / 2 ^ 8 % 256, w % 256]

/-- The 32-byte digest of a final state. -/
def digestBytes (st : Sha256State) : List Nat :=
  wordBytes st.h0 ++ wordBytes st.h1 ++ wordBytes st.h2 ++ wordBytes st.h3 ++
  wordBytes st.h4 ++ wordBytes st.h5 ++ wordBytes st.h6 ++ wordBytes st.h7

/-- Digest `hashlib.sha256(msg).digest()` over a byte list. -/
def sha256 (msg : List Nat) : List Nat :=
  digestBytes ((chunks64 (sha256pad msg)).foldl sha256Compress sha256Init)

/-- Rendering of `hexdigest()`: two lowercase hex characters per byte. -/
def bytesToHex : List Nat → List Char
  | [] => []
  | b :: rest => hexDigit (b / 16) :: hexDigit b :: bytesToHex rest

/-! ### save_query (server.py lines 49-74) -/

/-- The body of `POST /api/extract` (`ExtractRequest` in server.py).
`api_key` is carried but never enters the persisted or hashed
content. -/
structure ExtractRequest where
  text : String
  api_key : Option String
  temperature : PyFloat
  model : Option String

/-- Serialization value of an optional string (model may be None). -/
def optSVal : Option String → SVal
  | some s => .str s
  | none => .null

/-- The `query_data` dict built by `save_query`, in insertion order:
text, temperature, model, timestamp. -/
def queryData (req : ExtractRequest) (timestamp : String) : List (String × SVal) :=
  [("text", .str req.text), ("temperature", .float req.temperature),
   ("model", optSVal req.model), ("timestamp", .str timestamp)]

/-- The `saved/` directory, modelled as filename-to-record storage.
The stored record is the structured `query_data` (its on-disk JSON
rendering is a bijective image and irrelevant to the properties
here). -/
abbrev Store := List (String × List (String × SVal))

/-- Writing a file: overwrite the record at the path if present,
else create it. -/
def writeRecord (store : Store) (path : String) (record : List (String × SVal)) : Store :=
  match store with
  | [] => [(path, record)]
  | kv :: rest =>
      if kv.1 = path then (path, record) :: rest
      else kv :: writeRecord rest path record

/-- Reading a file back. -/
def readRecord (store : Store) (path : String) : Option (List (String × SVal)) :=
  match store with
  | [] => none
  | kv :: rest => if kv.1 = path then some kv.2 else readRecord rest path

/-- The hash computed by `save_query`:
`hashlib.sha256(json.dumps({k: v for k, v in query_data.items() if k != "timestamp"}, sort_keys=True).encode()).hexdigest()[:12]`. -/
def save_query_hash (req : ExtractRequest) (timestamp : String) : String :=
  let query_data := queryData req timestamp
  let query_str := dumpsSorted (query_data.filter (fun kv => kv.1 != "timestamp"))
  String.mk ((bytesToHex (sha256 (utf8Bytes query_str))).take 12)

/-- Function `save_query` (server.py lines 49-74): compute the hash, write
`query_data` (timestamp included) to `saved/{hash}.json`, return the
hash with the updated store. -/
def save_query (store : Store) (req : ExtractRequest) (timestamp : String) :
    String × Store :=
  let query_hash := save_query_hash req timestamp
  let file_path := "saved/" ++ query_hash ++ ".json"
  (query_hash, writeRecord store file_path (queryData req timestamp))

/-- Spec-side (for comparison with the source): the first 12 characters
of the lowercase hex SHA-256 digest of the canonical sorted-key JSON
serialization of exactly `{text, temperature, model}` — keys in sorted
order model < temperature < text, no timestamp, no credential. -/
def spec_query_id (text : String) (temperature : PyFloat) (model : Option String) : String :=
  String.mk ((bytesToHex (sha256 (utf8Bytes (dumpsObj
    [("model", optSVal model), ("temperature", .float temperature),
     ("text", .str text)])))).take 12)

/-! ## The documented response shape

The prompt documents the model's output as a JSON object with `nodes`
(entries `id`/`content`/`type` strings, optional `rhetorical_force`
string, optional `span` object of integer `start`/`end`), `edges`
(entries `source`/`target`/`type` strings, optional `explanation`
string), an optional `summary` string and optional `key_tensions`
string array.  `NodeInput`/`EdgeInput` are the abstract entries of
that shape and `render` produces their JSON form, so "a response of
the documented shape" is a rendered quadruple. -/

/-- The data of one documented-shape node entry. -/
structure NodeInput where
  id : String
  content : String
  type : String
  rhetorical_force : Option String
  span : Option (Int × Int)

/-- The JSON object for a span. -/
def spanJson (p : Int × Int) : Json :=
  .obj [("start", .num p.1), ("end", .num p.2)]

/-- The JSON fields of a documented-shape node entry (optional fields
omitted when absent). -/
def NodeInput.fields (i : NodeInput) : List (String × Json) :=
  [("id", .str i.id), ("content", .str i.content), ("type", .str i.type)] ++
    (match i.rhetorical_force with
     | some r => [("rhetorical_force", Json.str r)]
     | none => []) ++
    (match i.span with
     | some p => [("span", spanJson p)]
     | none => [])

/-- The JSON object of a documented-shape node entry. -/
def NodeInput.render (i : NodeInput) : Json :=
  .obj i.fields

/-- The `Node` whose every field carries the entry's input values
unchanged. -/
def NodeInput.toNode (i : NodeInput) : Node :=
  ⟨i.id, i.content, i.type, i.rhetorical_force, i.span.map (fun p => ⟨p.1, p.2⟩)⟩

/-- The data of one documented-shape edge entry. -/
structure EdgeInput where
  source : String
  target : String
  type : String
  explanation : Option String

/-- The JSON fields of a documented-shape edge entry. -/
def EdgeInput.fields (e : EdgeInput) : List (String × Json) :=
  [("source", .str e.source), ("target", .str e.target), ("type", .str e.type)] ++
    (match e.explanation with
     | some x => [("explanation", Json.str x)]
     | none => [])

/-- The JSON object of a documented-shape edge entry. -/
def EdgeInput.render (e : EdgeInput) : Json :=
  .obj e.fields

/-- The `Edge` whose every field carries the entry's input values
unchanged. -/
def EdgeInput.toEdge (e : EdgeInput) : Edge :=
  ⟨e.source, e.target, e.type, e.explanation⟩

/-- A top-level key that is present exactly when its value is. -/
def optEntry (k : String) (v : Option Json) : List (String × Json) :=
  match v with
  | some j => [(k, j)]
  | none => []

/-- A whole documented-shape response object: each of the four
documented top-level keys present iff the corresponding input is. -/
def renderData (ns : Option (List NodeInput)) (es : Option (List EdgeInput))
    (summary : Option String) (kt : Option (List String)) : Json :=
  .obj (optEntry "nodes" (ns.map (fun l => .arr (l.map NodeInput.render))) ++
    optEntry "edges" (es.map (fun l => .arr (l.map EdgeInput.render))) ++
    optEntry "summary" (summary.map .str) ++
    optEntry "key_tensions" (kt.map (fun l => .arr (l.map .str))))

/-! ### Concrete inputs used by the witness theorems -/

/-- A concrete documented-shape node entry. -/
def wNode : NodeInput :=
  ⟨"n1", "Exercise improves health", "premise", some "asserts", some (0, 25)⟩

/-- A second concrete node entry with the optional fields absent. -/
def wNode2 : NodeInput :=
  ⟨"n2", "everyone should exercise daily", "conclusion", none, none⟩

/-- A concrete documented-shape edge entry. -/
def wEdge : EdgeInput :=
  ⟨"n1", "n2", "supports", some "premise backs conclusion"⟩

/-- A parse function returning a full documented-shape object. -/
def wLoadsFull : String → Except String Json :=
  fun _ => .ok (renderData (some [wNode, wNode2]) (some [wEdge])
    (some "exercise argument") (some ["none noted"]))

/-- A parse function returning an object with no `nodes` key. -/
def wLoadsNoNodes : String → Except String Json :=
  fun _ => .ok (renderData none (some [wEdge]) none none)

/-- A parse function returning the empty JSON object (no `nodes` and
no `edges` key). -/
def wLoadsEmptyObj : String → Except String Json :=
  fun _ => .ok (renderData none none none none)

/-- A parse function returning an object with no `edges` key. -/
def wLoadsNoEdges : String → Except String Json :=
  fun _ => .ok (renderData (some [wNode]) none none none)

/-- A parse function that fails the way `json.loads` reports failure
on non-JSON text. -/
def wLoadsBad : String → Except String Json :=
  fun _ => .error "Expecting value: line 1 column 1 (char 0)"

/-- A parse function returning an object that tries to smuggle in
`version` and `source_text`. -/
def wLoadsHijack : String → Except String Json :=
  fun _ => .ok (.obj [("version", .str "9.9"), ("source_text", .str "not the input")])

/-! # Theorems -/

theorem exceptBind_ok {ε α β : Type} (x : Except ε α) (f : α → Except ε β) (b : β) :
    x >>= f = .ok b ↔ ∃ a, x = .ok a ∧ f a = .ok b := by
  cases x <;> simp [Bind.bind, Except.bind]

theorem nodeOfData_fields (i : NodeInput) : nodeOfData i.fields = .ok i.toNode := by
  rcases i with ⟨id, c, t, rf, sp⟩
  rcases rf with _ | r <;> rcases sp with _ | ⟨st, en⟩ <;> rfl

theorem edgeOfData_fields (e : EdgeInput) : edgeOfData e.fields = .ok e.toEdge := by
  rcases e with ⟨s, t, ty, ex⟩
  rcases ex with _ | x <;> rfl

theorem convertNodes_render (nis : List NodeInput) :
    convertNodes (nis.map NodeInput.render) = .ok (nis.map NodeInput.toNode) := by
  induction nis with
  | nil => rfl
  | cons i rest ih =>
      simp [NodeInput.render, convertNodes, nodeOfData_fields i, ih, Bind.bind, Except.bind]

theorem convertEdges_render (eis : List EdgeInput) :
    convertEdges (eis.map EdgeInput.render) = .ok (eis.map EdgeInput.toEdge) := by
  induction eis with
  | nil => rfl
  | cons e rest ih =>
      simp [EdgeInput.render, convertEdges, edgeOfData_fields e, ih, Bind.bind, Except.bind]

theorem listStrVal_map (field : String) (l : List String) :
    listStrVal field (l.map Json.str) = .ok l := by
  induction l with
  | nil => rfl
  | cons s rest ih => simp [listStrVal, ih, Bind.bind, Except.bind]

theorem convertData_render (text : String) (ns : Option (List NodeInput))
    (es : Option (List EdgeInput)) (summary : Option String) (kt : Option (List String)) :
    convertData text (renderData ns es summary kt) =
      .ok ⟨"1.0", text, (ns.getD []).map NodeInput.toNode,
           (es.getD []).map EdgeInput.toEdge, summary, kt⟩ := by
  rcases ns with _ | nis <;> rcases es with _ | eis <;>
    rcases summary with _ | s <;> rcases kt with _ | k <;>
    simp +decide [renderData, optEntry, convertData, getDefault, dictGet,
      convertNodesJson, convertEdgesJson, convertNodes_render, convertEdges_render,
      convertNodes, convertEdges,
      optStrVal, optStrListVal, listStrVal_map, Bind.bind, Except.bind]

/-- C1: for every model response that parses as a JSON object whose
`nodes` and `edges` are arrays of entries of the documented shape, the
blocking extraction returns an ArgumentMap whose node count equals the
length of the input `nodes` array, whose edge count equals the length
of the input `edges` array, and in which every field of every node and
edge (id, content, type, rhetorical_force, span, source, target,
explanation) and the top-level `summary` and `key_tensions` equal the
corresponding input values unchanged. -/
theorem C1_blocking_round_trip (loads : String → Except String Json)
    (text response_text : String) (nis : List NodeInput) (eis : List EdgeInput)
    (summary : Option String) (kt : Option (List String))
    (h : loads response_text = .ok (renderData (some nis) (some eis) summary kt)) :
    extract_argument_map loads text response_text =
      .ok ⟨"1.0", text, nis.map NodeInput.toNode, eis.map EdgeInput.toEdge, summary, kt⟩ ∧
    (nis.map NodeInput.toNode).length = (nis.map NodeInput.render).length ∧
    (eis.map EdgeInput.toEdge).length = (eis.map EdgeInput.render).length := by
  refine ⟨?_, by simp, by simp⟩
  simp [extract_argument_map, h, convertData_render]

/-- Witness for C1 at a concrete documented-shape response. -/
theorem C1_blocking_round_trip_witness :
    wLoadsFull "resp" = .ok (renderData (some [wNode, wNode2]) (some [wEdge])
      (some "exercise argument") (some ["none noted"])) ∧
    (extract_argument_map wLoadsFull "src text" "resp" =
      .ok ⟨"1.0", "src text", [wNode, wNode2].map NodeInput.toNode,
           [wEdge].map EdgeInput.toEdge, some "exercise argument", some ["none noted"]⟩ ∧
     ([wNode, wNode2].map NodeInput.toNode).length = ([wNode, wNode2].map NodeInput.render).length ∧
     ([wEdge].map EdgeInput.toEdge).length = ([wEdge].map EdgeInput.render).length) :=
  ⟨rfl, C1_blocking_round_trip wLoadsFull "src text" "resp" [wNode, wNode2] [wEdge]
    (some "exercise argument") (some ["none noted"]) rfl⟩

/-- C2: for every model response text that is not parseable as JSON,
the blocking extraction fails with the malformed-output `ValueError`
carrying the underlying parse diagnostic, and returns no ArgumentMap,
partial or otherwise. -/
theorem C2_malformed_json_error (loads : String → Except String Json)
    (text response_text e : String) (h : loads response_text = .error e) :
    extract_argument_map loads text response_text =
      .error (.valueError ("LLM returned invalid JSON: " ++ e)) := by
  simp [extract_argument_map, h]

/-- Witness for C2 at a concrete unparseable response. -/
theorem C2_malformed_json_error_witness :
    wLoadsBad "this is not json" = .error "Expecting value: line 1 column 1 (char 0)" ∧
    extract_argument_map wLoadsBad "src" "this is not json" =
      .error (.valueError ("LLM returned invalid JSON: " ++
        "Expecting value: line 1 column 1 (char 0)")) :=
  ⟨rfl, C2_malformed_json_error wLoadsBad "src" "this is not json" _ rfl⟩

/-- C3: for every backend content (finite fragment sequence), the
concatenation of the fragments yielded by the streaming extraction
equals the single string the blocking extraction would parse for the
same backend content, and the streaming extraction's final outcome
equals the blocking one's. -/
theorem C3_stream_matches_blocking (loads : String → Except String Json)
    (text : String) (backendContent : List String) :
    String.join (extract_argument_map_stream loads text backendContent).1 =
      backend_blocking_text backendContent ∧
    (extract_argument_map_stream loads text backendContent).2 =
      extract_argument_map loads text (backend_blocking_text backendContent) :=
  ⟨rfl, rfl⟩

/-- C8: for every model response that parses as a JSON object in which
the `nodes` key (respectively the `edges` key) is absent — the other
key absent or present, lists arbitrary — the blocking extraction
succeeds and the corresponding ArgumentMap field is the empty
sequence. -/
theorem C8_absent_defaults_to_empty :
    (∀ (loads : String → Except String Json) (text response_text : String)
       (es : Option (List EdgeInput)) (summary : Option String) (kt : Option (List String)),
       loads response_text = .ok (renderData none es summary kt) →
       extract_argument_map loads text response_text =
         .ok ⟨"1.0", text, [], (es.getD []).map EdgeInput.toEdge, summary, kt⟩) ∧
    (∀ (loads : String → Except String Json) (text response_text : String)
       (ns : Option (List NodeInput)) (summary : Option String) (kt : Option (List String)),
       loads response_text = .ok (renderData ns none summary kt) →
       extract_argument_map loads text response_text =
         .ok ⟨"1.0", text, (ns.getD []).map NodeInput.toNode, [], summary, kt⟩) := by
  constructor
  · intro loads text response_text es summary kt h
    simp [extract_argument_map, h, convertData_render]
  · intro loads text response_text ns summary kt h
    simp [extract_argument_map, h, convertData_render]

/-- Witness for C8: one response missing only `nodes`, one missing
only `edges`, and the empty object missing both. -/
theorem C8_absent_defaults_to_empty_witness :
    (wLoadsNoNodes "r" = .ok (renderData none (some [wEdge]) none none) ∧
     extract_argument_map wLoadsNoNodes "s" "r" =
       .ok ⟨"1.0", "s", [], ((some [wEdge]).getD []).map EdgeInput.toEdge, none, none⟩) ∧
    (wLoadsNoEdges "r" = .ok (renderData (some [wNode]) none none none) ∧
     extract_argument_map wLoadsNoEdges "s" "r" =
       .ok ⟨"1.0", "s", ((some [wNode]).getD []).map NodeInput.toNode, [], none, none⟩) ∧
    (wLoadsEmptyObj "r" = .ok (renderData none none none none) ∧
     extract_argument_map wLoadsEmptyObj "s" "r" =
       .ok ⟨"1.0", "s", [], ((none : Option (List EdgeInput)).getD []).map EdgeInput.toEdge,
            none, none⟩) :=
  ⟨⟨rfl, C8_absent_defaults_to_empty.1 wLoadsNoNodes "s" "r" (some [wEdge]) none none rfl⟩,
   ⟨rfl, C8_absent_defaults_to_empty.2 wLoadsNoEdges "s" "r" (some [wNode]) none none rfl⟩,
   ⟨rfl, C8_absent_defaults_to_empty.1 wLoadsEmptyObj "s" "r" none none none rfl⟩⟩

theorem convertData_ok_inv (text : String) (data : Json) (m : ArgumentMap)
    (h : convertData text data = .ok m) :
    m.version = "1.0" ∧ m.source_text = text := by
  cases data with
  | obj fields =>
      rcases h1 : convertNodesJson (getDefault fields "nodes" (.arr [])) with e1 | nodes <;>
        rcases h2 : convertEdgesJson (getDefault fields "edges" (.arr [])) with e2 | edges <;>
        rcases h3 : optStrVal "summary" (getDefault fields "summary" .null) with e3 | summary <;>
        rcases h4 : optStrListVal "key_tensions" (getDefault fields "key_tensions" .null)
          with e4 | kt <;>
        simp only [convertData, Bind.bind, Except.bind, h1, h2, h3, h4] at h
      all_goals cases h
      exact ⟨rfl, rfl⟩
  | null => cases h
  | bool b => cases h
  | num n => cases h
  | str s => cases h
  | arr elems => cases h

/-- C10: for every input text and backend content, the ArgumentMap
returned by the blocking and the streaming extraction has version
`"1.0"` and source_text exactly the input text; `version` or
`source_text` keys in the model output cannot override them. -/
theorem C10_version_and_source_text (loads : String → Except String Json) (text : String) :
    (∀ (response_text : String) (m : ArgumentMap),
        extract_argument_map loads text response_text = .ok m →
        m.version = "1.0" ∧ m.source_text = text) ∧
    (∀ (backendContent : List String) (m : ArgumentMap),
        (extract_argument_map_stream loads text backendContent).2 = .ok m →
        m.version = "1.0" ∧ m.source_text = text) := by
  constructor
  · intro response_text m h
    unfold extract_argument_map at h
    cases hl : loads response_text with
    | error e => rw [hl] at h; cases h
    | ok data => rw [hl] at h; exact convertData_ok_inv text data m h
  · intro backendContent m h
    simp only [extract_argument_map_stream] at h
    cases hl : loads (String.join (generate_json_stream backendContent)) with
    | error e => rw [hl] at h; cases h
    | ok data => rw [hl] at h; exact convertData_ok_inv text data m h

/-- Witness for C10 at a response that tries to override `version`
and `source_text`. -/
theorem C10_version_and_source_text_witness :
    extract_argument_map wLoadsHijack "the text" "r" =
      .ok ⟨"1.0", "the text", [], [], none, none⟩ ∧
    (ArgumentMap.mk "1.0" "the text" [] [] none none).version = "1.0" ∧
    (ArgumentMap.mk "1.0" "the text" [] [] none none).source_text = "the text" :=
  ⟨rfl, (C10_version_and_source_text wLoadsHijack "the text").1 "r" _ rfl⟩

theorem pyOrV_falsy {x y : Option PyVal} (h : pyTruthy x = false) : pyOrV x y = y := by
  simp [pyOrV, h]

/-- C4 counterexample: a backend response with an absent text payload
(no `text`, no `output_text`) does not fail with `CallError` — the
`or ""` chain substitutes the empty string and `generate_json` returns
it successfully, contradicting the claim. -/
theorem C4_counterexample :
    generate_json ⟨none, none⟩ = .ok "" := rfl

/-- C4 as amended: `generate_json` fails with `CallError` exactly when
the effective payload — the first truthy of `resp.text` and
`resp.output_text` — is a non-string value; when both are absent or
falsy, the empty string is silently substituted and returned; a truthy
string payload is returned unchanged, whether it arrives in
`resp.text` or, with `resp.text` falsy, through the `resp.output_text`
fallback. -/
theorem C4_call_error_amended (resp : GenResp) :
    (resp.text = some (.nonStr true) →
        generate_json resp =
          .error (.callError "LLM returned non-string content for JSON response.")) ∧
    (pyTruthy resp.text = false → resp.output_text = some (.nonStr true) →
        generate_json resp =
          .error (.callError "LLM returned non-string content for JSON response.")) ∧
    (pyTruthy resp.text = false → pyTruthy resp.output_text = false →
        generate_json resp = .ok "") ∧
    (∀ s, resp.text = some (.str s) → s ≠ "" →
        generate_json resp = .ok s) ∧
    (∀ s, pyTruthy resp.text = false → resp.output_text = some (.str s) → s ≠ "" →
        generate_json resp = .ok s) := by
  rcases resp with ⟨t, o⟩
  refine ⟨?_, ?_, ?_, ?_, ?_⟩
  · rintro rfl
    rfl
  · intro ht ho
    subst ho
    have h1 : pyOrV t (some (.nonStr true)) = some (.nonStr true) := pyOrV_falsy ht
    simp only [generate_json]
    rw [h1]
    rfl
  · intro ht ho
    have h1 : pyOrV t o = o := pyOrV_falsy ht
    have h2 : pyOrV o (some (.str "")) = some (.str "") := pyOrV_falsy ho
    simp only [generate_json]
    rw [h1, h2]
  · intro s hs hne
    subst hs
    simp [generate_json, pyOrV, pyTruthy, hne]
  · intro s ht ho hne
    subst ho
    have h1 : pyOrV t (some (.str s)) = some (.str s) := pyOrV_falsy ht
    have h2 : pyOrV (some (.str s)) (some (.str "")) = some (.str s) := by
      simp [pyOrV, pyTruthy, hne]
    simp only [generate_json]
    rw [h1, h2]

/-- Witness for the amended C4 at a truthy non-string payload and at
a truthy string payload arriving through the output_text fallback. -/
theorem C4_call_error_amended_witness :
    ((GenResp.mk (some (.nonStr true)) none).text = some (.nonStr true) ∧
     generate_json ⟨some (.nonStr true), none⟩ =
       .error (.callError "LLM returned non-string content for JSON response.")) ∧
    (pyTruthy (GenResp.mk none (some (.str "payload"))).text = false ∧
     (GenResp.mk none (some (.str "payload"))).output_text = some (.str "payload") ∧
     ("payload" : String) ≠ "" ∧
     generate_json ⟨none, some (.str "payload")⟩ = .ok "payload") :=
  ⟨⟨rfl, (C4_call_error_amended ⟨some (.nonStr true), none⟩).1 rfl⟩,
   ⟨rfl, rfl, by decide,
    (C4_call_error_amended ⟨none, some (.str "payload")⟩).2.2.2.2 "payload" rfl rfl
      (by decide)⟩⟩

theorem truthyStr_pyOrS (a b : Option String) :
    truthyStr (pyOrS a b) = (truthyStr a).or (truthyStr b) := by
  rcases a with _ | sa
  · simp [pyOrS, truthyStr]
  · simp only [pyOrS, truthyStr]
    split_ifs <;> simp [truthyStr, *]

theorem firstNonEmpty_cons (a : Option String) (rest : List (Option String)) :
    firstNonEmpty (a :: rest) = (truthyStr a).or (firstNonEmpty rest) := by
  rcases a with _ | sa
  · simp [firstNonEmpty, truthyStr]
  · simp only [firstNonEmpty, truthyStr]
    split_ifs <;> simp

/-- C7 counterexample: with `required=False`, an explicit key `"k"`,
and a client constructor that throws, `init_llm_client` returns no
client rather than failing with `ConfigurationError` — the claim's
unconditional "when resolution itself throws it fails with
ConfigurationError" is false. -/
theorem C7_counterexample :
    init_llm_client (α := Unit) (fun _ => .error "boom") (some "k") none none false
      ⟨none⟩ ⟨none, none, "us-central1"⟩ = .ok none := rfl

/-- C7 as amended: credential resolution selects the first non-empty
of (explicit parameter, request-scoped key, environment default), else
the first non-empty project identifier selects the alternate (Vertex)
auth mode; when none resolve and the call is marked required it fails
with `NotConfigured`; when construction throws **and the call is
marked required** it fails with `ConfigurationError` wrapping the
cause; a non-required call yields no client in either failure case.
Stated as equality with the spec-side resolution function. -/
theorem C7_resolution_amended {α : Type} (mkClient : ClientConfig → Except String α)
    (api_key project location : Option String) (required : Bool)
    (ctx : RequestCtx) (env : LLMEnv) :
    init_llm_client mkClient api_key project location required ctx env =
      init_llm_client_spec mkClient api_key project location required ctx env := by
  rcases ctx with ⟨rk⟩
  rcases env with ⟨ek, ep, loc⟩
  simp only [init_llm_client, init_llm_client_spec, attemptClient]
  rw [show truthyStr (pyOrS (pyOrS api_key rk) ek) = firstNonEmpty [api_key, rk, ek] by
        rw [truthyStr_pyOrS, truthyStr_pyOrS, firstNonEmpty_cons, firstNonEmpty_cons,
          firstNonEmpty_cons]
        simp [firstNonEmpty, Option.or_assoc],
      show truthyStr (pyOrS project ep) = firstNonEmpty [project, ep] by
        rw [truthyStr_pyOrS, firstNonEmpty_cons, firstNonEmpty_cons]
        simp [firstNonEmpty]]

theorem writeRecord_keys_twice (s : Store) (k : String) (v1 v2 : List (String × SVal)) :
    (writeRecord (writeRecord s k v1) k v2).map Prod.fst =
      (writeRecord s k v1).map Prod.fst := by
  induction s with
  | nil => simp [writeRecord]
  | cons kv rest ih =>
      by_cases h : kv.1 = k
      · simp [writeRecord, h]
      · simp [writeRecord, h, ih]

theorem readRecord_writeRecord (s : Store) (k : String) (v : List (String × SVal)) :
    readRecord (writeRecord s k v) k = some v := by
  induction s with
  | nil => simp [writeRecord, readRecord]
  | cons kv rest ih =>
      by_cases h : kv.1 = k
      · simp [writeRecord, readRecord, h]
      · simp [writeRecord, readRecord, h, ih]

theorem save_query_hash_timestamp (req : ExtractRequest) (t1 t2 : String) :
    save_query_hash req t1 = save_query_hash req t2 := by
  simp +decide [save_query_hash, queryData, List.filter]

/-- C5: calling `save_query` twice with identical
`{text, temperature, model}` returns the identical id both times
regardless of differing timestamps; the second call overwrites the
same record (the key set of the store is unchanged) rather than adding
a new one, and the stored record afterwards is the query data with the
refreshed timestamp and the other fields unchanged. -/
theorem C5_save_query_idempotent (store : Store) (req : ExtractRequest) (t1 t2 : String) :
    (save_query (save_query store req t1).2 req t2).1 = (save_query store req t1).1 ∧
    ((save_query (save_query store req t1).2 req t2).2).map Prod.fst =
      ((save_query store req t1).2).map Prod.fst ∧
    readRecord (save_query (save_query store req t1).2 req t2).2
        ("saved/" ++ (save_query store req t1).1 ++ ".json") = some (queryData req t2) := by
  have hh : save_query_hash req t2 = save_query_hash req t1 :=
    save_query_hash_timestamp req t2 t1
  refine ⟨?_, ?_, ?_⟩
  · simp [save_query, hh]
  · simp only [save_query, hh]
    exact writeRecord_keys_twice store ("saved/" ++ save_query_hash req t1 ++ ".json") _ _
  · simp only [save_query, hh]
    exact readRecord_writeRecord _ _ _

theorem sortFilter_queryData (req : ExtractRequest) (t : String) :
    sortByKey ((queryData req t).filter (fun kv => kv.1 != "timestamp")) =
      [("model", optSVal req.model), ("temperature", SVal.float req.temperature),
       ("text", SVal.str req.text)] := by
  simp +decide [queryData, sortByKey, insertSorted, List.filter]

theorem bytesToHex_length (l : List Nat) : (bytesToHex l).length = 2 * l.length := by
  induction l with
  | nil => rfl
  | cons b rest ih =>
      simp only [bytesToHex, List.length_cons, ih]
      omega

theorem sha256_length (msg : List Nat) : (sha256 msg).length = 32 := by
  simp [sha256, digestBytes, wordBytes]

theorem hexDigit_mem (n : Nat) : hexDigit n ∈ "0123456789abcdef".data := by
  have h : ∀ k, k < 16 → "0123456789abcdef".data.getD k '0' ∈ "0123456789abcdef".data := by
    decide
  exact h (n % 16) (Nat.mod_lt _ (by decide))

theorem bytesToHex_mem {c : Char} {l : List Nat} (h : c ∈ bytesToHex l) :
    c ∈ "0123456789abcdef".data := by
  induction l with
  | nil => cases h
  | cons b rest ih =>
      simp only [bytesToHex, List.mem_cons] at h
      rcases h with rfl | rfl | h'
      · exact hexDigit_mem _
      · exact hexDigit_mem _
      · exact ih h'

/-- C6: the identifier computed by `save_query` is exactly the first
12 lowercase hexadecimal characters of the SHA-256 digest of the
sorted-key JSON serialization of `{text, temperature, model}` — the
timestamp and the credential are excluded from the hashed content
(`spec_query_id` takes only those three fields). -/
theorem C6_query_id_is_spec (store : Store) (req : ExtractRequest) (timestamp : String) :
    (save_query store req timestamp).1 =
      spec_query_id req.text req.temperature req.model ∧
    (save_query store req timestamp).1.length = 12 ∧
    ((save_query store req timestamp).1.data.all
      (fun c => decide (c ∈ "0123456789abcdef".data))) = true := by
  refine ⟨?_, ?_, ?_⟩
  · show save_query_hash req timestamp = _
    simp only [save_query_hash, spec_query_id, dumpsSorted]
    rw [sortFilter_queryData]
  · show ((bytesToHex (sha256 (utf8Bytes (dumpsSorted
        ((queryData req timestamp).filter (fun kv => kv.1 != "timestamp")))))).take 12).length = 12
    rw [List.length_take, bytesToHex_length, sha256_length]
    rfl
  · rw [List.all_eq_true]
    intro c hc
    rw [decide_eq_true_eq]
    exact bytesToHex_mem (List.take_subset 12 _ hc)

/-! ### C9: every failure of pydantic construction is a ValidationError,
and successful construction pins down the required fields. -/

theorem reqStrVal_error {field : String} {j : Json} {e : PyError}
    (h : reqStrVal field j = .error e) : ∃ m, e = .validationError m := by
  cases j <;> cases h <;> exact ⟨_, rfl⟩

theorem optStrVal_error {field : String} {j : Json} {e : PyError}
    (h : optStrVal field j = .error e) : ∃ m, e = .validationError m := by
  cases j <;> cases h <;> exact ⟨_, rfl⟩

theorem reqIntField_error {fields : List (String × Json)} {f : String} {e : PyError}
    (h : reqIntField fields f = .error e) : ∃ m, e = .validationError m := by
  unfold reqIntField at h
  cases hd : dictGet fields f with
  | none => rw [hd] at h; cases h; exact ⟨_, rfl⟩
  | some v => rw [hd] at h; cases v <;> cases h <;> exact ⟨_, rfl⟩

theorem reqStrField_error {fields : List (String × Json)} {f : String} {e : PyError}
    (h : reqStrField fields f = .error e) : ∃ m, e = .validationError m := by
  unfold reqStrField at h
  cases hd : dictGet fields f with
  | none => rw [hd] at h; cases h; exact ⟨_, rfl⟩
  | some v => rw [hd] at h; exact reqStrVal_error h

theorem optStrField_error {fields : List (String × Json)} {f : String} {e : PyError}
    (h : optStrField fields f = .error e) : ∃ m, e = .validationError m := by
  unfold optStrField at h
  cases hd : dictGet fields f with
  | none => rw [hd] at h; cases h
  | some v => rw [hd] at h; exact optStrVal_error h

theorem fromKwargs_error {fields : List (String × Json)} {e : PyError}
    (h : TextSpan.fromKwargs fields = .error e) : ∃ m, e = .validationError m := by
  rcases h1 : reqIntField fields "start" with e1 | s
  · simp only [TextSpan.fromKwargs, h1, Bind.bind, Except.bind] at h
    cases h
    exact reqIntField_error h1
  rcases h2 : reqIntField fields "end" with e2 | ed
  · simp only [TextSpan.fromKwargs, h1, h2, Bind.bind, Except.bind] at h
    cases h
    exact reqIntField_error h2
  · simp only [TextSpan.fromKwargs, h1, h2, Bind.bind, Except.bind] at h
    cases h

theorem spanField_error {fields : List (String × Json)} {f : String} {e : PyError}
    (h : spanField fields f = .error e) : ∃ m, e = .validationError m := by
  unfold spanField at h
  cases hd : dictGet fields f with
  | none => rw [hd] at h; cases h
  | some v =>
      rw [hd] at h
      cases v with
      | null => cases h
      | obj sub =>
          rcases h1 : TextSpan.fromKwargs sub with e1 | ts
          · simp only [h1, Bind.bind, Except.bind] at h
            cases h
            exact fromKwargs_error h1
          · simp only [h1, Bind.bind, Except.bind] at h
            cases h
      | bool b => cases h; exact ⟨_, rfl⟩
      | num n => cases h; exact ⟨_, rfl⟩
      | str s => cases h; exact ⟨_, rfl⟩
      | arr l => cases h; exact ⟨_, rfl⟩

theorem listStrVal_error {field : String} {l : List Json} {e : PyError}
    (h : listStrVal field l = .error e) : ∃ m, e = .validationError m := by
  induction l with
  | nil => cases h
  | cons j rest ih =>
      cases j with
      | str s =>
          rcases h1 : listStrVal field rest with e1 | r
          · simp only [listStrVal, h1, Bind.bind, Except.bind] at h
            cases h
            exact ih h1
          · simp only [listStrVal, h1, Bind.bind, Except.bind] at h
            cases h
      | null => cases h; exact ⟨_, rfl⟩
      | bool b => cases h; exact ⟨_, rfl⟩
      | num n => cases h; exact ⟨_, rfl⟩
      | arr l' => cases h; exact ⟨_, rfl⟩
      | obj o => cases h; exact ⟨_, rfl⟩

theorem optStrListVal_error {field : String} {j : Json} {e : PyError}
    (h : optStrListVal field j = .error e) : ∃ m, e = .validationError m := by
  cases j with
  | null => cases h
  | arr elems =>
      rcases h1 : listStrVal field elems with e1 | r
      · simp only [optStrListVal, h1, Bind.bind, Except.bind] at h
        cases h
        exact listStrVal_error h1
      · simp only [optStrListVal, h1, Bind.bind, Except.bind] at h
        cases h
  | bool b => cases h; exact ⟨_, rfl⟩
  | num n => cases h; exact ⟨_, rfl⟩
  | str s => cases h; exact ⟨_, rfl⟩
  | obj o => cases h; exact ⟨_, rfl⟩

theorem node_fromMapping_error {fields : List (String × Json)} {e : PyError}
    (h : Node.fromMapping fields = .error e) : ∃ m, e = .validationError m := by
  rcases h1 : reqStrField fields "id" with e1 | idv
  · simp only [Node.fromMapping, h1, Bind.bind, Except.bind] at h
    cases h
    exact reqStrField_error h1
  rcases h2 : reqStrField fields "content" with e2 | cv
  · simp only [Node.fromMapping, h1, h2, Bind.bind, Except.bind] at h
    cases h
    exact reqStrField_error h2
  rcases h3 : reqStrField fields "type" with e3 | tv
  · simp only [Node.fromMapping, h1, h2, h3, Bind.bind, Except.bind] at h
    cases h
    exact reqStrField_error h3
  rcases h4 : optStrField fields "rhetorical_force" with e4 | rv
  · simp only [Node.fromMapping, h1, h2, h3, h4, Bind.bind, Except.bind] at h
    cases h
    exact optStrField_error h4
  rcases h5 : spanField fields "span" with e5 | sv
  · simp only [Node.fromMapping, h1, h2, h3, h4, h5, Bind.bind, Except.bind] at h
    cases h
    exact spanField_error h5
  · simp only [Node.fromMapping, h1, h2, h3, h4, h5, Bind.bind, Except.bind] at h
    cases h

theorem node_fromMapping_ok {fields : List (String × Json)} {n : Node}
    (h : Node.fromMapping fields = .ok n) :
    reqStrField fields "id" = .ok n.id ∧
    reqStrField fields "content" = .ok n.content ∧
    reqStrField fields "type" = .ok n.type ∧
    optStrField fields "rhetorical_force" = .ok n.rhetorical_force ∧
    spanField fields "span" = .ok n.span := by
  rcases h1 : reqStrField fields "id" with e1 | idv <;>
    rcases h2 : reqStrField fields "content" with e2 | cv <;>
    rcases h3 : reqStrField fields "type" with e3 | tv <;>
    rcases h4 : optStrField fields "rhetorical_force" with e4 | rv <;>
    rcases h5 : spanField fields "span" with e5 | sv <;>
    simp only [Node.fromMapping, h1, h2, h3, h4, h5, Bind.bind, Except.bind] at h <;>
    cases h
  exact ⟨rfl, rfl, rfl, rfl, rfl⟩

theorem edge_fromMapping_error {fields : List (String × Json)} {e : PyError}
    (h : Edge.fromMapping fields = .error e) : ∃ m, e = .validationError m := by
  rcases h1 : reqStrField fields "source" with e1 | sv
  · simp only [Edge.fromMapping, h1, Bind.bind, Except.bind] at h
    cases h
    exact reqStrField_error h1
  rcases h2 : reqStrField fields "target" with e2 | tv
  · simp only [Edge.fromMapping, h1, h2, Bind.bind, Except.bind] at h
    cases h
    exact reqStrField_error h2
  rcases h3 : reqStrField fields "type" with e3 | yv
  · simp only [Edge.fromMapping, h1, h2, h3, Bind.bind, Except.bind] at h
    cases h
    exact reqStrField_error h3
  rcases h4 : optStrField fields "explanation" with e4 | xv
  · simp only [Edge.fromMapping, h1, h2, h3, h4, Bind.bind, Except.bind] at h
    cases h
    exact optStrField_error h4
  · simp only [Edge.fromMapping, h1, h2, h3, h4, Bind.bind, Except.bind] at h
    cases h

theorem edge_fromMapping_ok {fields : List (String × Json)} {ed : Edge}
    (h : Edge.fromMapping fields = .ok ed) :
    reqStrField fields "source" = .ok ed.source ∧
    reqStrField fields "target" = .ok ed.target ∧
    reqStrField fields "type" = .ok ed.type ∧
    optStrField fields "explanation" = .ok ed.explanation := by
  rcases h1 : reqStrField fields "source" with e1 | sv <;>
    rcases h2 : reqStrField fields "target" with e2 | tv <;>
    rcases h3 : reqStrField fields "type" with e3 | yv <;>
    rcases h4 : optStrField fields "explanation" with e4 | xv <;>
    simp only [Edge.fromMapping, h1, h2, h3, h4, Bind.bind, Except.bind] at h <;>
    cases h
  exact ⟨rfl, rfl, rfl, rfl⟩

theorem versionField_error {fields : List (String × Json)} {e : PyError}
    (h : versionField fields = .error e) : ∃ m, e = .validationError m := by
  unfold versionField at h
  cases hd : dictGet fields "version" with
  | none => rw [hd] at h; cases h
  | some v => rw [hd] at h; exact reqStrVal_error h

theorem nodeItems_error {l : List Json} {e : PyError}
    (h : nodeItems l = .error e) : ∃ m, e = .validationError m := by
  induction l with
  | nil => cases h
  | cons j rest ih =>
      cases j with
      | obj nf =>
          rcases h1 : Node.fromMapping nf with e1 | n
          · simp only [nodeItems, h1, Bind.bind, Except.bind] at h
            cases h
            exact node_fromMapping_error h1
          · rcases h2 : nodeItems rest with e2 | ns
            · simp only [nodeItems, h1, h2, Bind.bind, Except.bind] at h
              cases h
              exact ih h2
            · simp only [nodeItems, h1, h2, Bind.bind, Except.bind] at h
              cases h
      | null => cases h; exact ⟨_, rfl⟩
      | bool b => cases h; exact ⟨_, rfl⟩
      | num n => cases h; exact ⟨_, rfl⟩
      | str s => cases h; exact ⟨_, rfl⟩
      | arr l' => cases h; exact ⟨_, rfl⟩

theorem edgeItems_error {l : List Json} {e : PyError}
    (h : edgeItems l = .error e) : ∃ m, e = .validationError m := by
  induction l with
  | nil => cases h
  | cons j rest ih =>
      cases j with
      | obj ef =>
          rcases h1 : Edge.fromMapping ef with e1 | ed
          · simp only [edgeItems, h1, Bind.bind, Except.bind] at h
            cases h
            exact edge_fromMapping_error h1
          · rcases h2 : edgeItems rest with e2 | es
            · simp only [edgeItems, h1, h2, Bind.bind, Except.bind] at h
              cases h
              exact ih h2
            · simp only [edgeItems, h1, h2, Bind.bind, Except.bind] at h
              cases h
      | null => cases h; exact ⟨_, rfl⟩
      | bool b => cases h; exact ⟨_, rfl⟩
      | num n => cases h; exact ⟨_, rfl⟩
      | str s => cases h; exact ⟨_, rfl⟩
      | arr l' => cases h; exact ⟨_, rfl⟩

theorem nodesFieldVal_error {fields : List (String × Json)} {e : PyError}
    (h : nodesFieldVal fields = .error e) : ∃ m, e = .validationError m := by
  unfold nodesFieldVal at h
  cases hd : dictGet fields "nodes" with
  | none => rw [hd] at h; cases h
  | some v =>
      rw [hd] at h
      cases v with
      | arr elems => exact nodeItems_error h
      | null => cases h; exact ⟨_, rfl⟩
      | bool b => cases h; exact ⟨_, rfl⟩
      | num n => cases h; exact ⟨_, rfl⟩
      | str s => cases h; exact ⟨_, rfl⟩
      | obj o => cases h; exact ⟨_, rfl⟩

theorem edgesFieldVal_error {fields : List (String × Json)} {e : PyError}
    (h : edgesFieldVal fields = .error e) : ∃ m, e = .validationError m := by
  unfold edgesFieldVal at h
  cases hd : dictGet fields "edges" with
  | none => rw [hd] at h; cases h
  | some v =>
      rw [hd] at h
      cases v with
      | arr elems => exact edgeItems_error h
      | null => cases h; exact ⟨_, rfl⟩
      | bool b => cases h; exact ⟨_, rfl⟩
      | num n => cases h; exact ⟨_, rfl⟩
      | str s => cases h; exact ⟨_, rfl⟩
      | obj o => cases h; exact ⟨_, rfl⟩

theorem ktField_error {fields : List (String × Json)} {e : PyError}
    (h : ktField fields = .error e) : ∃ m, e = .validationError m := by
  unfold ktField at h
  cases hd : dictGet fields "key_tensions" with
  | none => rw [hd] at h; cases h
  | some v => rw [hd] at h; exact optStrListVal_error h

theorem argumentMap_fromMapping_error {fields : List (String × Json)} {e : PyError}
    (h : ArgumentMap.fromMapping fields = .error e) : ∃ m, e = .validationError m := by
  rcases h1 : versionField fields with e1 | vv
  · simp only [ArgumentMap.fromMapping, h1, Bind.bind, Except.bind] at h
    cases h
    exact versionField_error h1
  rcases h2 : reqStrField fields "source_text" with e2 | sv
  · simp only [ArgumentMap.fromMapping, h1, h2, Bind.bind, Except.bind] at h
    cases h
    exact reqStrField_error h2
  rcases h3 : nodesFieldVal fields with e3 | nv
  · simp only [ArgumentMap.fromMapping, h1, h2, h3, Bind.bind, Except.bind] at h
    cases h
    exact nodesFieldVal_error h3
  rcases h4 : edgesFieldVal fields with e4 | ev
  · simp only [ArgumentMap.fromMapping, h1, h2, h3, h4, Bind.bind, Except.bind] at h
    cases h
    exact edgesFieldVal_error h4
  rcases h5 : optStrField fields "summary" with e5 | smv
  · simp only [ArgumentMap.fromMapping, h1, h2, h3, h4, h5, Bind.bind, Except.bind] at h
    cases h
    exact optStrField_error h5
  rcases h6 : ktField fields with e6 | kv
  · simp only [ArgumentMap.fromMapping, h1, h2, h3, h4, h5, h6, Bind.bind, Except.bind] at h
    cases h
    exact ktField_error h6
  · simp only [ArgumentMap.fromMapping, h1, h2, h3, h4, h5, h6, Bind.bind, Except.bind] at h
    cases h

theorem argumentMap_fromMapping_ok {fields : List (String × Json)} {a : ArgumentMap}
    (h : ArgumentMap.fromMapping fields = .ok a) :
    reqStrField fields "source_text" = .ok a.source_text ∧
    optStrField fields "summary" = .ok a.summary ∧
    ktField fields = .ok a.key_tensions := by
  rcases h1 : versionField fields with e1 | vv <;>
    rcases h2 : reqStrField fields "source_text" with e2 | sv <;>
    rcases h3 : nodesFieldVal fields with e3 | nv <;>
    rcases h4 : edgesFieldVal fields with e4 | ev <;>
    rcases h5 : optStrField fields "summary" with e5 | smv <;>
    rcases h6 : ktField fields with e6 | kv <;>
    simp only [ArgumentMap.fromMapping, h1, h2, h3, h4, h5, h6, Bind.bind, Except.bind] at h <;>
    cases h
  exact ⟨rfl, rfl, rfl⟩

theorem reqStrField_ok_shape {fields : List (String × Json)} {f s : String}
    (h : reqStrField fields f = .ok s) : dictGet fields f = some (.str s) := by
  unfold reqStrField at h
  cases hd : dictGet fields f with
  | none => rw [hd] at h; cases h
  | some v =>
      rw [hd] at h
      cases v with
      | str s' =>
          injection h with h'
          rw [h']
      | null => cases h
      | bool b => cases h
      | num n => cases h
      | arr l => cases h
      | obj o => cases h

theorem required_str_conjunct {α : Type} (fields : List (String × Json)) (f : String)
    (construct : Except PyError α)
    (herr : ∀ e, construct = .error e → ∃ m, e = .validationError m)
    (hok : ∀ a : α, construct = .ok a → ∃ s, dictGet fields f = some (Json.str s))
    (hbad : ∀ s, dictGet fields f ≠ some (Json.str s)) :
    ∃ m, construct = .error (.validationError m) := by
  rcases hres : construct with e | a
  · obtain ⟨m, rfl⟩ := herr e hres
    exact ⟨m, rfl⟩
  · obtain ⟨s, hs⟩ := hok a hres
    exact absurd hs (hbad s)

/-- C9: pydantic construction from a mapping fails with a
`ValidationError` (the spec's SchemaValidationError) whenever a
required field (`id`, `content`, `type` on Node; `source`, `target`,
`type` on Edge; `source_text` on ArgumentMap) is absent or not a
string; and whenever an Optional-typed field (`rhetorical_force`,
`span`, `explanation`, `summary`, `key_tensions`) is absent, the
constructed object holds `none` for it — never an empty string. -/
theorem C9_schema_validation_contract (fields : List (String × Json)) :
    ((∀ s, dictGet fields "id" ≠ some (Json.str s)) →
        ∃ m, Node.fromMapping fields = .error (.validationError m)) ∧
    ((∀ s, dictGet fields "content" ≠ some (Json.str s)) →
        ∃ m, Node.fromMapping fields = .error (.validationError m)) ∧
    ((∀ s, dictGet fields "type" ≠ some (Json.str s)) →
        ∃ m, Node.fromMapping fields = .error (.validationError m)) ∧
    ((∀ s, dictGet fields "source" ≠ some (Json.str s)) →
        ∃ m, Edge.fromMapping fields = .error (.validationError m)) ∧
    ((∀ s, dictGet fields "target" ≠ some (Json.str s)) →
        ∃ m, Edge.fromMapping fields = .error (.validationError m)) ∧
    ((∀ s, dictGet fields "type" ≠ some (Json.str s)) →
        ∃ m, Edge.fromMapping fields = .error (.validationError m)) ∧
    ((∀ s, dictGet fields "source_text" ≠ some (Json.str s)) →
        ∃ m, ArgumentMap.fromMapping fields = .error (.validationError m)) ∧
    (dictGet fields "rhetorical_force" = none →
        ∀ n, Node.fromMapping fields = .ok n → n.rhetorical_force = none) ∧
    (dictGet fields "span" = none →
        ∀ n, Node.fromMapping fields = .ok n → n.span = none) ∧
    (dictGet fields "explanation" = none →
        ∀ ed, Edge.fromMapping fields = .ok ed → ed.explanation = none) ∧
    (dictGet fields "summary" = none →
        ∀ a, ArgumentMap.fromMapping fields = .ok a → a.summary = none) ∧
    (dictGet fields "key_tensions" = none →
        ∀ a, ArgumentMap.fromMapping fields = .ok a → a.key_tensions = none) := by
  refine ⟨?_, ?_, ?_, ?_, ?_, ?_, ?_, ?_, ?_, ?_, ?_, ?_⟩
  · exact required_str_conjunct fields "id" _
      (fun e h => node_fromMapping_error h)
      (fun n h => ⟨n.id, reqStrField_ok_shape (node_fromMapping_ok h).1⟩)
  · exact required_str_conjunct fields "content" _
      (fun e h => node_fromMapping_error h)
      (fun n h => ⟨n.content, reqStrField_ok_shape (node_fromMapping_ok h).2.1⟩)
  · exact required_str_conjunct fields "type" _
      (fun e h => node_fromMapping_error h)
      (fun n h => ⟨n.type, reqStrField_ok_shape (node_fromMapping_ok h).2.2.1⟩)
  · exact required_str_conjunct fields "source" _
      (fun e h => edge_fromMapping_error h)
      (fun ed h => ⟨ed.source, reqStrField_ok_shape (edge_fromMapping_ok h).1⟩)
  · exact required_str_conjunct fields "target" _
      (fun e h => edge_fromMapping_error h)
      (fun ed h => ⟨ed.target, reqStrField_ok_shape (edge_fromMapping_ok h).2.1⟩)
  · exact required_str_conjunct fields "type" _
      (fun e h => edge_fromMapping_error h)
      (fun ed h => ⟨ed.type, reqStrField_ok_shape (edge_fromMapping_ok h).2.2.1⟩)
  · exact required_str_conjunct fields "source_text" _
      (fun e h => argumentMap_fromMapping_error h)
      (fun a h => ⟨a.source_text, reqStrField_ok_shape (argumentMap_fromMapping_ok h).1⟩)
  · intro hd n h
    have hp := (node_fromMapping_ok h).2.2.2.1
    simp only [optStrField, hd] at hp
    injection hp with hp'
    exact hp'.symm
  · intro hd n h
    have hp := (node_fromMapping_ok h).2.2.2.2
    simp only [spanField, hd] at hp
    injection hp with hp'
    exact hp'.symm
  · intro hd ed h
    have hp := (edge_fromMapping_ok h).2.2.2
    simp only [optStrField, hd] at hp
    injection hp with hp'
    exact hp'.symm
  · intro hd a h
    have hp := (argumentMap_fromMapping_ok h).2.1
    simp only [optStrField, hd] at hp
    injection hp with hp'
    exact hp'.symm
  · intro hd a h
    have hp := (argumentMap_fromMapping_ok h).2.2
    simp only [ktField, hd] at hp
    injection hp with hp'
    exact hp'.symm

/-- Witness for C9: a mapping whose `id` is present but a number
fails Node construction with a ValidationError. -/
theorem C9_schema_validation_contract_witness :
    (∀ s, dictGet [("id", Json.num 1)] "id" ≠ some (Json.str s)) ∧
    (∃ m, Node.fromMapping [("id", Json.num 1)] = .error (.validationError m)) :=
  ⟨fun s h => by simp [dictGet] at h,
   (C9_schema_validation_contract [("id", Json.num 1)]).1
     (fun s h => by simp [dictGet] at h)⟩

end Argmap
